import Mathlib

/-!
# serialterm: a shallow embedding of `serialterm.c`

The C program is a console terminal for a Windows serial port.  `main` opens
and configures the port and calls `Terminal`, which starts the keyboard thread
`ConInThread` and then runs the receive loop.

The embedding makes every call into the operating system an explicit input:
each step of a loop takes a record of the results the system calls of that
step return, and yields the new local state together with the list of
observable actions (console output, log output, calls on the port) it
performed, in program order.
-/

namespace SerialTerm

/-! ## Win32 constants used by the program

The program takes them from the Windows SDK headers (through `StdAfx.h`);
they are given here with the values those headers fix. -/

/-- Comm event "a character was received". -/
def EV_RXCHAR : Nat := 1

/-- Last-error code of an overlapped operation that has been queued. -/
def ERROR_IO_PENDING : Nat := 997

/-- Wait result: the object is signalled. -/
def WAIT_OBJECT_0 : Nat := 0

/-- Wait result: the time-out interval elapsed. -/
def WAIT_TIMEOUT : Nat := 258

/-- Event type of a keyboard record in `INPUT_RECORD`. -/
def KEY_EVENT : Nat := 1

/-! ## Global configuration (`DisplayMode`, `separator`, `echo`, `logtofile`, `logname`) -/

/-- The global variables of line 22-23 that hold the session settings. -/
structure Config where
  DisplayMode : Nat
  separator : Nat
  echo : Nat
  logtofile : Nat
  logname : String
  deriving DecidableEq, Repr

/-- Handles the program closes with `CloseHandle`. -/
inductive HandleKind where
  | thread
  | event
  | port
  deriving DecidableEq, Repr

/-- Observable actions: the console and log output and the calls on the port,
    the console input and the session, one action per call in the source. -/
inductive Event where
  /-- Call of `printf` with the text it produces on the console. -/
  | printf (text : String)
  /-- Call of `fprintf(stream, ...)` with the text it appends to the log. -/
  | fprintf (text : String)
  /-- Call of `PrintError(str)`: message, OS error text and `help()` on the console. -/
  | printError (str : String)
  /-- Call of `help()`. -/
  | help
  /-- Call of `cls(hconn)`. -/
  | cls
  /-- Call of `fopen(logname, "w")`. -/
  | fopen (name : String)
  /-- Call of `fclose(stream)`. -/
  | fclose
  /-- A `fprintf` on a NULL stream (the log file could not be opened). -/
  | nullStream
  /-- A `strcpy` that reads a NULL source or writes past the end of its
      1024-byte destination (`exename`, `logname`). -/
  | badCopy
  /-- Call of `CreateThread(..., ConInThread, h, ...)`. -/
  | createThread
  /-- Call of `CloseHandle`. -/
  | closeHandle (h : HandleKind)
  /-- Call of `CreateFileA(argv[1], ...)`. -/
  | createFile (name : String)
  /-- Call of `SetCommTimeouts`. -/
  | setCommTimeouts
  /-- Call of `SetCommState`. -/
  | setCommState
  /-- Call of `SetCommMask(h, v)`; `ok` is its return value. -/
  | setCommMask (v : Nat) (ok : Bool)
  /-- Call of `WaitCommEvent`. -/
  | waitCommEvent
  /-- Call of `ReadFile` on the port. -/
  | readFile
  /-- Call of `WriteFile(h, buf, 1, ...)` with the byte in `buf[0]`. -/
  | writeFile (byte : Nat)
  /-- Call of `ReadConsoleInput`. -/
  | readConsoleInput
  /-- Call of `Terminal(h)` from `main` under the given settings. -/
  | terminal (cfg : Config)
  deriving DecidableEq, Repr

/-- Result of a Win32 call returning `BOOL`: `TRUE`, or `FALSE` with the
    value `GetLastError()` then reports. -/
inductive IoResult where
  | ok
  | failed (lastError : Nat)
  deriving DecidableEq, Repr

/-- Whether the call returned `TRUE`. -/
def IoResult.succeeded : IoResult → Bool
  | .ok => true
  | .failed _ => false

/-! ## Console and log text of a trace -/

/-- Text one action puts on the console; `report str` is the text that
    `PrintError(str)` prints (it depends on `GetLastError` and `FormatMessage`). -/
def Event.consoleOut (report : String → String) : Event → String
  | .printf t => t
  | .printError s => report s
  | _ => ""

/-- Console text of a trace. -/
def consoleText (report : String → String) : List Event → String
  | [] => ""
  | e :: es => e.consoleOut report ++ consoleText report es

/-- Text of `printf("0x%x", (unsigned char)c)`. -/
def fmtHex (c : Nat) : String := "0x" ++ String.mk (Nat.toDigits 16 (c % 256))

/-- Text of `printf("%c", (unsigned char)c)`. -/
def fmtChar (c : Nat) : String := String.singleton (Char.ofNat (c % 256))

/-- Text of `printf("%i", (unsigned char)c)`. -/
def fmtDec (c : Nat) : String := String.mk (Nat.toDigits 10 (c % 256))

/-! ## The display loop of `Terminal` (lines 310-331) -/

/-- Lines 312-317: the console output for one received byte. -/
def consoleByte (cfg : Config) (c : Nat) : List Event :=
  (if cfg.DisplayMode = 0 then [Event.printf (fmtHex c)] else []) ++
  (if cfg.DisplayMode = 1 then [Event.printf (fmtChar c)] else []) ++
  (if cfg.DisplayMode = 2 then [Event.printf (fmtDec c)] else []) ++
  (if cfg.separator = 0 then [Event.printf " "] else []) ++
  (if cfg.separator = 1 then [Event.printf "\n"] else []) ++
  (if cfg.separator = 2 then [Event.printf "\t"] else [])

/-- Lines 322-327: the log output for one received byte. -/
def logByte (cfg : Config) (c : Nat) : List Event :=
  (if cfg.DisplayMode = 0 then [Event.fprintf (fmtHex c)] else []) ++
  (if cfg.DisplayMode = 1 then [Event.fprintf (fmtChar c)] else []) ++
  (if cfg.DisplayMode = 2 then [Event.fprintf (fmtDec c)] else []) ++
  (if cfg.separator = 0 then [Event.fprintf " "] else []) ++
  (if cfg.separator = 1 then [Event.fprintf "\n"] else []) ++
  (if cfg.separator = 2 then [Event.fprintf "\t"] else [])

/-- Lines 311-330: the `for` loop over the `read` bytes of `buf`.  `stream`
    tells whether `stream` is non-NULL.  The second component is `false` when
    the loop stopped at a `fprintf` on a NULL stream. -/
def renderLoop (cfg : Config) (stream : Bool) : List Nat → List Event × Bool
  | [] => ([], true)
  | c :: cs =>
    if cfg.logtofile ≠ 0 then
      if stream || (logByte cfg c).isEmpty then
        let r := renderLoop cfg stream cs
        (consoleByte cfg c ++ logByte cfg c ++ r.1, r.2)
      else (consoleByte cfg c ++ [Event.nullStream], false)
    else
      let r := renderLoop cfg stream cs
      (consoleByte cfg c ++ r.1, r.2)

/-! ## The receive loop of `Terminal` (lines 243-340) as a step machine -/

/-- Where the receive loop stands between two steps. -/
inductive RxPhase where
  /-- About to test `while (keepGoing)` and call `SetCommMask(h, EV_RXCHAR)`. -/
  | loopTop
  /-- About to call `WaitCommEvent` (line 246). -/
  | waiting
  /-- Inside `do ... while (read)`, about to call `ReadFile` (line 285). -/
  | draining
  /-- After the loop: the event handle and the log stream have been closed. -/
  | stopped
  /-- Stopped by a `fprintf` on a NULL stream. -/
  | faulted
  deriving DecidableEq, Repr

/-- Local variables of `Terminal` that live across steps. -/
structure RxState where
  phase : RxPhase
  keepGoing : Bool
  mask : Nat
  hRes : Nat
  stream : Bool
  deriving DecidableEq, Repr

/-- Results of the system calls of one step of the receive loop.  A step
    reads only the fields of the calls it makes. -/
structure RxEnv where
  /-- Result of `SetCommMask(h, EV_RXCHAR)`. -/
  setCommMask : IoResult
  /-- Result of `WaitCommEvent(h, &mask, &ov)`. -/
  waitCommEvent : IoResult
  /-- Value returned by `WaitForSingleObjectEx(ov.hEvent, 5000, FALSE)`. -/
  waitResult : Nat
  /-- Result of `GetOverlappedResult`. -/
  overlappedOk : Bool
  /-- Value the driver stores in `mask` when the wait completes (`none`: it
      leaves the variable alone). -/
  evtMask : Option Nat
  /-- Result of `ReadFile(h, buf, sizeof(buf), &read, &ov)`. -/
  readFile : IoResult
  /-- Bytes found in `buf[0 .. read)` once the read has completed, `read`
      being what `ReadFile` or `GetOverlappedResult` stored in it. -/
  data : List Nat
  deriving DecidableEq, Repr

/-- Lines 336-340: what follows the `while` loop. -/
def rxLeave (s : RxState) : RxState × List Event :=
  ({ s with phase := RxPhase.stopped },
    [Event.closeHandle HandleKind.event] ++ (if s.stream then [Event.fclose] else []))

/-- Lines 243-245: loop test and re-arming of the comm mask. -/
def rxLoopTop (s : RxState) (e : RxEnv) : RxState × List Event :=
  if s.keepGoing then
    ({ s with phase := RxPhase.waiting },
      [Event.setCommMask EV_RXCHAR e.setCommMask.succeeded] ++
      (if e.setCommMask.succeeded then [] else [Event.printError "E007_SetCommMask failed"]))
  else rxLeave s

/-- Lines 274-279 and 334: the tests on `mask` after the wait. -/
def rxAfterWait (s : RxState) : RxState × List Event :=
  if s.mask = 0 ∧ s.hRes ≠ WAIT_TIMEOUT then
    let r := rxLeave s
    (r.1, [Event.printf ("Breaking (hRes = " ++
      String.mk (Nat.toDigits 16 (s.hRes % 4294967296)) ++ ")\n")] ++ r.2)
  else if s.mask &&& EV_RXCHAR ≠ 0 then
    ({ s with phase := RxPhase.draining }, [])
  else
    ({ s with phase := RxPhase.loopTop, mask := 0 }, [])

/-- Lines 246-269: `WaitCommEvent` and the handling of its result. -/
def rxWait (s : RxState) (e : RxEnv) : RxState × List Event :=
  match e.waitCommEvent with
  | IoResult.ok =>
    let r := rxAfterWait { s with mask := e.evtMask.getD s.mask }
    (r.1, [Event.waitCommEvent] ++ r.2)
  | IoResult.failed err =>
    if err = ERROR_IO_PENDING then
      if e.waitResult = WAIT_OBJECT_0 then
        if e.overlappedOk then
          let r := rxAfterWait { s with hRes := e.waitResult, mask := e.evtMask.getD s.mask }
          (r.1, [Event.waitCommEvent] ++ r.2)
        else
          let r := rxAfterWait { s with hRes := e.waitResult, mask := e.evtMask.getD s.mask,
                                        keepGoing := false }
          (r.1, [Event.waitCommEvent, Event.printError "E008_GetOverlappedResult failed"] ++ r.2)
      else
        let r := rxAfterWait { s with hRes := e.waitResult }
        (r.1, [Event.waitCommEvent] ++ r.2)
    else
      let r := rxLeave s
      (r.1, [Event.waitCommEvent, Event.printError "E009_WaitCommEvent failed"] ++ r.2)

/-- Lines 310-332 and 334: display of the bytes read, then the test of
    `while (read)`; when `read` is zero the drain ends with `mask = 0`. -/
def rxAfterRead (cfg : Config) (s : RxState) (buf : List Nat) : RxState × List Event :=
  if buf.length ≠ 0 then
    let r := renderLoop cfg s.stream buf
    if r.2 then (s, r.1) else ({ s with phase := RxPhase.faulted }, r.1)
  else ({ s with phase := RxPhase.loopTop, mask := 0 }, [])

/-- Lines 284-309: one `ReadFile` of the drain and the handling of its result. -/
def rxRead (cfg : Config) (s : RxState) (e : RxEnv) : RxState × List Event :=
  match e.readFile with
  | IoResult.ok =>
    let r := rxAfterRead cfg s e.data
    (r.1, [Event.readFile, Event.printf "noasync\n"] ++ r.2)
  | IoResult.failed err =>
    if err = ERROR_IO_PENDING then
      if e.waitResult = WAIT_OBJECT_0 then
        let r := rxAfterRead cfg s e.data
        (r.1, [Event.readFile] ++
          (if e.overlappedOk then [] else [Event.printError "E010_GetOverlappedResult failed"]) ++
          r.2)
      else if e.waitResult = WAIT_TIMEOUT then
        let r := rxAfterRead cfg s []
        (r.1, [Event.readFile, Event.printf "ReadFile WAIT_TIMEOUT\n"] ++ r.2)
      else
        let r := rxAfterRead cfg s []
        (r.1, [Event.readFile] ++ r.2)
    else
      ({ s with phase := RxPhase.loopTop, mask := 0 },
        [Event.readFile, Event.printError "E011_ReadFile failed"])

/-- One step of the receive loop. -/
def rxStep (cfg : Config) (s : RxState) (e : RxEnv) : RxState × List Event :=
  match s.phase with
  | RxPhase.loopTop => rxLoopTop s e
  | RxPhase.waiting => rxWait s e
  | RxPhase.draining => rxRead cfg s e
  | RxPhase.stopped => (s, [])
  | RxPhase.faulted => (s, [])

/-- The receive loop run over the results of its successive steps. -/
def rxRun (cfg : Config) (s : RxState) : List RxEnv → RxState × List Event
  | [] => (s, [])
  | e :: es =>
    let r := rxStep cfg s e
    let r2 := rxRun cfg r.1 es
    (r2.1, r.2 ++ r2.2)

/-- Results of the calls in the prologue of `Terminal` (lines 218-239). -/
structure StartEnv where
  /-- Whether `fopen(logname, "w")` returned a stream. -/
  fopenOk : Bool
  /-- Whether `CreateThread` returned something else than `INVALID_HANDLE_VALUE`. -/
  createThreadOk : Bool
  /-- Whether `CreateEvent` returned something else than `INVALID_HANDLE_VALUE`. -/
  createEventOk : Bool
  /-- Content of the uninitialised local `mask`. -/
  mask0 : Nat
  deriving DecidableEq, Repr

/-- Lines 208-241: the prologue of `Terminal`; `none` when it returns before
    the loop. -/
def Terminal_start (cfg : Config) (e : StartEnv) : Option RxState × List Event :=
  let open1 := if cfg.logtofile ≠ 0 then [Event.fopen cfg.logname] else []
  if e.createThreadOk then
    (some { phase := RxPhase.loopTop, keepGoing := true, mask := e.mask0,
            hRes := 2147483648, stream := decide (cfg.logtofile ≠ 0) && e.fopenOk },
      [Event.cls] ++ open1 ++ [Event.createThread, Event.closeHandle HandleKind.thread] ++
      (if e.createEventOk then [] else [Event.printError "E006_CreateEvent failed"]))
  else
    (none, [Event.cls] ++ open1 ++ [Event.createThread, Event.printError "E005_CreateThread failed"])

/-- The whole of `Terminal(h)` over the results of its steps. -/
def Terminal (cfg : Config) (e : StartEnv) (script : List RxEnv) : Option RxState × List Event :=
  match Terminal_start cfg e with
  | (none, ev) => (none, ev)
  | (some s, ev) =>
    let r := rxRun cfg s script
    (some r.1, ev ++ r.2)

/-! ## The keyboard thread `ConInThread` (lines 108-205) as a step machine -/

/-- The fields of `INPUT_RECORD` the thread looks at.  The key fields are
    read through the `KeyEvent` member of the union whatever `EventType` is. -/
structure InputRecord where
  EventType : Nat
  bKeyDown : Bool
  wVirtualKeyCode : Nat
  AsciiChar : Nat
  deriving DecidableEq, Repr

/-- Where the keyboard thread stands between two steps. -/
inductive RelayPhase where
  /-- At the start of `ConInThread`. -/
  | start
  /-- At the top of the `do ... while (!quit)` body. -/
  | listening
  /-- After the loop, about to call `SetCommMask(h, 0)` (line 201). -/
  | quitting
  /-- Returned. -/
  | exited
  deriving DecidableEq, Repr

/-- Local state of the keyboard thread: its position and the record `b1`,
    which keeps its last content when `ReadConsoleInput` fails. -/
structure RelayState where
  phase : RelayPhase
  b1 : InputRecord
  deriving DecidableEq, Repr

/-- Results of the system calls of one step of the keyboard thread. -/
structure RelayEnv where
  /-- Whether `CreateEvent` returned something else than `INVALID_HANDLE_VALUE`. -/
  createEventOk : Bool
  /-- Record delivered by `ReadConsoleInput(hconn, &b1, 1, &read)`; `none` when
      the call fails (`read` stays 0 and `b1` is not written). -/
  readConsoleInput : Option InputRecord
  /-- Result of `WriteFile(h, buf, write, &write, &ov)`. -/
  writeFile : IoResult
  /-- Result of `GetOverlappedResult`. -/
  overlappedOk : Bool
  /-- Result of `SetCommMask(h, 0)`. -/
  setCommMask : IoResult
  deriving DecidableEq, Repr

/-- Text of `printf("%i", (int)v)` for a 32-bit value. -/
def fmtInt (v : Nat) : String :=
  if v % 4294967296 < 2147483648 then String.mk (Nat.toDigits 10 (v % 4294967296))
  else "-" ++ String.mk (Nat.toDigits 10 (4294967296 - v % 4294967296))

/-- Lines 182-194: sending `buf[0]` to the port; the first component is the
    value `quit` receives. -/
def relayWrite (cfg : Config) (kb : Nat) (e : RelayEnv) : Bool × List Event :=
  match e.writeFile with
  | IoResult.failed err =>
    let q := decide (err = ERROR_IO_PENDING) && !e.overlappedOk
    (q, [Event.writeFile kb] ++
      (if q then [Event.printError "E003_GetOverlappedResult failed"] else []) ++
      (if cfg.echo = 1 then [Event.printf (fmtChar kb)] else []))
  | IoResult.ok => (true, [Event.writeFile kb, Event.printError "E004_WriteFile failed"])

/-- Lines 131-197: one pass through the body of the `do` loop.  Yields the
    new content of `b1`, the value of `quit` and the actions performed. -/
def relayIter (cfg : Config) (b1 : InputRecord) (e : RelayEnv) :
    InputRecord × Bool × List Event :=
  let rec1 := e.readConsoleInput.getD b1
  let quit0 := e.readConsoleInput.isNone
  let ev0 := [Event.readConsoleInput] ++
    (if quit0 then [Event.printError "E002_ReadConsoleInput failed..."] else [])
  let kb := rec1.AsciiChar % 256
  if rec1.EventType = KEY_EVENT ∧ rec1.bKeyDown = false ∧
      (rec1.wVirtualKeyCode = 0x71 ∨ rec1.wVirtualKeyCode = 0x74) then
    (rec1, quit0, ev0)
  else if e.readConsoleInput.isSome then
    if kb = 0x1b ∨ kb = 0x3 then (rec1, true, ev0)
    else if kb ≠ 0 ∧ rec1.bKeyDown = true then
      let w := relayWrite cfg kb e
      (rec1, quit0 || w.1, ev0 ++ w.2)
    else (rec1, quit0, ev0)
  else (rec1, quit0, ev0)

/-- One step of the keyboard thread. -/
def relayStep (cfg : Config) (s : RelayState) (e : RelayEnv) : RelayState × List Event :=
  match s.phase with
  | RelayPhase.start =>
    if e.createEventOk then
      ({ s with phase := RelayPhase.listening },
        [Event.printf "press Esc or Ctrl+C to terminate\n"])
    else
      ({ s with phase := RelayPhase.exited },
        [Event.printError "E001_CreateEvent failed", Event.setCommMask 0 e.setCommMask.succeeded])
  | RelayPhase.listening =>
    let r := relayIter cfg s.b1 e
    ({ phase := if r.2.1 then RelayPhase.quitting else RelayPhase.listening, b1 := r.1 }, r.2.2)
  | RelayPhase.quitting =>
    ({ s with phase := RelayPhase.exited },
      [Event.setCommMask 0 e.setCommMask.succeeded] ++
      (match e.setCommMask with
        | IoResult.ok => []
        | IoResult.failed err =>
          [Event.printf ("SetCommMask-GetLastError: " ++ fmtInt err ++ "\n")]))
  | RelayPhase.exited => (s, [])

/-- The keyboard thread run over the results of its successive steps. -/
def relayRun (cfg : Config) (s : RelayState) : List RelayEnv → RelayState × List Event
  | [] => (s, [])
  | e :: es =>
    let r := relayStep cfg s e
    let r2 := relayRun cfg r.1 es
    (r2.1, r.2 ++ r2.2)

/-- Number of `SetCommMask(h, 0)` calls in a trace. -/
def shutdownRequests : List Event → Nat
  | [] => 0
  | Event.setCommMask 0 _ :: es => shutdownRequests es + 1
  | _ :: es => shutdownRequests es

/-! ## The two threads on the shared port -/

/-- Event mask of the port after the `SetCommMask` calls of a trace: a call
    that succeeds replaces the mask. -/
def maskAfter (m : Nat) : List Event → Nat
  | [] => m
  | Event.setCommMask v true :: es => maskAfter v es
  | _ :: es => maskAfter m es

/-- Both threads and the event mask the driver holds for the port. -/
structure System where
  relay : RelayState
  rx : RxState
  commMask : Nat
  deriving DecidableEq, Repr

/-- A scheduling choice: which thread takes its next step, with the results
    of the system calls of that step. -/
inductive Move where
  | relay (e : RelayEnv)
  | rx (e : RxEnv)
  deriving DecidableEq, Repr

/-- One step of one of the two threads. -/
def sysStep (cfg : Config) (σ : System) : Move → System × List Event
  | Move.relay e =>
    let r := relayStep cfg σ.relay e
    ({ σ with relay := r.1, commMask := maskAfter σ.commMask r.2 }, r.2)
  | Move.rx e =>
    let r := rxStep cfg σ.rx e
    ({ σ with rx := r.1, commMask := maskAfter σ.commMask r.2 }, r.2)

/-- An interleaving of steps of the two threads. -/
def sysRun (cfg : Config) (σ : System) : List Move → System × List Event
  | [] => (σ, [])
  | m :: ms =>
    let r := sysStep cfg σ m
    let r2 := sysRun cfg r.1 ms
    (r2.1, r.2 ++ r2.2)

/-! ## `wait4keypressed` (lines 343-383) -/

/-- Results of the system calls of `wait4keypressed`. -/
structure KeyWaitEnv where
  getStdHandleOk : Bool
  getConsoleModeOk : Bool
  setConsoleModeOk : Bool
  /-- Event types of `irInBuf[0 .. cNumRead)` before the first read (both
      are uninitialised locals). -/
  stale : List Nat
  /-- Successive results of `ReadConsoleInput(hStdin, irInBuf, 128, &cNumRead)`:
      the event types of the records delivered, or `none` when the call fails
      and leaves `irInBuf` and `cNumRead` as they were. -/
  reads : List (Option (List Nat))
  deriving DecidableEq, Repr

/-- Lines 369-379: the `while (quit)` loop.  The first component tells
    whether the loop ended; it is `false` when the reads run out first (the
    function is still blocked in `ReadConsoleInput`). -/
def keyLoop : List Nat → List (Option (List Nat)) → Bool × List Event
  | _, [] => (false, [])
  | stale, r :: rs =>
    let recs := r.getD stale
    let ev := [Event.readConsoleInput] ++
      (if r.isNone then [Event.printf "\nProblem:ReadConsoleInput\n"] else [])
    if recs.any (fun t => t == KEY_EVENT) then (true, ev)
    else
      let rest := keyLoop recs rs
      (rest.1, ev ++ rest.2)

/-- The function `wait4keypressed`: whether it returns, and its actions. -/
def wait4keypressed (e : KeyWaitEnv) : Bool × List Event :=
  let ev1 := if e.getStdHandleOk then [] else [Event.printf "Problem:GetStdHandle"]
  if e.getConsoleModeOk then (true, ev1)
  else
    let ev2 := [Event.printf "Problem:GetConsoleMode"] ++
      (if e.setConsoleModeOk then [] else [Event.printf "Problem:SetConsoleMode"])
    let loop := keyLoop e.stale e.reads
    (loop.1, ev1 ++ ev2 ++ loop.2)

/-! ## `main` (lines 385-461) -/

/-- First byte of a C string (`s[0]`): the terminating NUL for the empty string. -/
def firstChar (s : String) : Char := s.data.headD (Char.ofNat 0)

/-- C `strlen` of an argument: the number of bytes before its terminating
    NUL (arguments are taken in their UTF-8 encoding). -/
def strlen (s : String) : Nat := s.utf8ByteSize

/-- Size of the global buffers `char exename[1024]` and `char logname[1024]`
    (lines 21-22). -/
def NAME_SIZE : Nat := 1024

/-- Lines 410-432: the settings taken from `argv` (the DCB fields apart).
    The result is `none` when `strcpy(logname, argv[6])` of line 431 does not
    fit `logname` (the name and its NUL take more than 1024 bytes): the copy
    then runs over the globals declared after `logname`, the settings among
    them, and their values are no longer determined. -/
def parseConfig (argv : List String) : Option Config :=
  let argc := argv.length
  let DisplayMode :=
    if argc > 3 then
      let c := firstChar (argv.getD 3 "")
      let m1 := if c = 'h' then 0 else 1
      let m2 := if c = 'a' then 1 else m1
      if c = 'd' then 2 else m2
    else 1
  let separator :=
    if argc > 4 then
      let c := firstChar (argv.getD 4 "")
      let s1 := if c = 's' then 0 else 3
      let s2 := if c = 'n' then 1 else s1
      let s3 := if c = 't' then 2 else s2
      if c = 'e' then 3 else s3
    else 3
  let echo :=
    if argc > 5 then
      let c := firstChar (argv.getD 5 "")
      let e1 := if c = 'n' then 0 else 0
      if c = 'y' then 1 else e1
    else 0
  if argc > 6 then
    if strlen (argv.getD 6 "") < NAME_SIZE then
      some { DisplayMode := DisplayMode, separator := separator, echo := echo,
             logtofile := 1, logname := argv.getD 6 "" }
    else none
  else
    some { DisplayMode := DisplayMode, separator := separator, echo := echo,
           logtofile := 0, logname := "" }

/-- Results of the system calls of `main`. -/
structure MainEnv where
  /-- Whether `CreateFileA` returned a valid handle. -/
  createFileOk : Bool
  setCommTimeoutsOk : Bool
  setCommStateOk : Bool
  keys : KeyWaitEnv
  deriving DecidableEq, Repr

/-- The function `main`: its exit status (`none` when it does not return) and
    the actions performed.  `Terminal(h)` appears as one action.  A `strcpy`
    that does not fit its buffer (line 387 for `argv[0]`, line 431 for
    `argv[6]`) or has no source (`argc = 0`) ends the modelled run. -/
def main (argv : List String) (e : MainEnv) : Option Nat × List Event :=
  if argv.length = 0 ∨ NAME_SIZE ≤ strlen (argv.getD 0 "") then (none, [Event.badCopy])
  else if argv.length > 1 then
    if e.createFileOk = false then
      (some 0, [Event.createFile (argv.getD 1 ""), Event.printError "E012_Failed to open port"])
    else if e.setCommTimeoutsOk = false then
      match parseConfig argv with
      | some cfg =>
        (some 0,
          [Event.createFile (argv.getD 1 ""), Event.setCommTimeouts,
            Event.printError "E013_SetCommTimeouts failed", Event.setCommState] ++
          (if e.setCommStateOk then [] else [Event.printError "E014_SetCommState failed"]) ++
          [Event.terminal cfg, Event.closeHandle HandleKind.port])
      | none =>
        (none,
          [Event.createFile (argv.getD 1 ""), Event.setCommTimeouts,
            Event.printError "E013_SetCommTimeouts failed", Event.badCopy])
    else
      (some 0, [Event.createFile (argv.getD 1 ""), Event.setCommTimeouts])
  else
    let w := wait4keypressed e.keys
    (if w.1 then some 0 else none,
      [Event.printf "Commandline Serial Terminal - May 2014\n", Event.help] ++ w.2)

/-! ## Reference definitions written from the specification -/

namespace Spec

/-- Display modes of the specification. -/
inductive Mode where
  | hex
  | ascii
  | decimal
  deriving DecidableEq, Repr

/-- Separator policies of the specification. -/
inductive Separator where
  | space
  | newline
  | tab
  | none
  deriving DecidableEq, Repr

/-- Value of the global `DisplayMode` that stands for a mode (lines 412-414). -/
def Mode.code : Mode → Nat
  | Mode.hex => 0
  | Mode.ascii => 1
  | Mode.decimal => 2

/-- Value of the global `separator` that stands for a policy (lines 418-421). -/
def Separator.code : Separator → Nat
  | Separator.space => 0
  | Separator.newline => 1
  | Separator.tab => 2
  | Separator.none => 3

/-- The formatter of the specification: hexadecimal value after the marker
    `0x`, the single character, or the unsigned decimal value. -/
def format (b : Nat) : Mode → String
  | Mode.hex => "0x" ++ String.mk (Nat.toDigits 16 b)
  | Mode.ascii => String.singleton (Char.ofNat b)
  | Mode.decimal => String.mk (Nat.toDigits 10 b)

/-- The separator mapping of the specification. -/
def separator : Separator → String
  | Separator.space => " "
  | Separator.newline => "\n"
  | Separator.tab => "\t"
  | Separator.none => ""

/-- The rendering of a byte sequence in the specification: for every byte in
    order, its token followed by the separator. -/
def render (m : Mode) (p : Separator) : List Nat → String
  | [] => ""
  | b :: bs => format b m ++ separator p ++ render m p bs

/-- Value of a digit character (decimal digits and the letters a-f, A-F). -/
def digitValue (c : Char) : Option Nat :=
  if 48 ≤ c.toNat ∧ c.toNat ≤ 57 then some (c.toNat - 48)
  else if 97 ≤ c.toNat ∧ c.toNat ≤ 102 then some (c.toNat - 87)
  else if 65 ≤ c.toNat ∧ c.toNat ≤ 70 then some (c.toNat - 55)
  else Option.none

/-- Digits read so far (`acc`) extended by the remaining characters. -/
def readDigits (base : Nat) : List Char → Nat → Option Nat
  | [], acc => some acc
  | c :: cs, acc =>
    match digitValue c with
    | some v => if v < base then readDigits base cs (base * acc + v) else Option.none
    | Option.none => Option.none

/-- Reading an unsigned number in the given base: fails on the empty string
    and on any character that is not a digit of the base. -/
def readNat (base : Nat) : List Char → Option Nat
  | [] => Option.none
  | c :: cs => readDigits base (c :: cs) 0

end Spec

/-! ## Scenarios and auxiliary definitions used in the statements -/

/-- Token the display loop puts on the console for byte `c` under the given
    `DisplayMode`, with no separator (lines 312-314). -/
def tokenText (DisplayMode : Nat) (c : Nat) : String :=
  consoleText (fun s => s)
    (consoleByte { DisplayMode := DisplayMode, separator := 3, echo := 0,
                   logtofile := 0, logname := "" } c)

/-- A read of the drain that completes through the overlapped path:
    `ReadFile` reports `ERROR_IO_PENDING`, the wait is signalled and
    `GetOverlappedResult` succeeds. -/
def RxEnv.isOverlappedRead (e : RxEnv) : Prop :=
  e.readFile = IoResult.failed ERROR_IO_PENDING ∧ e.waitResult = WAIT_OBJECT_0 ∧
    e.overlappedOk = true

instance (e : RxEnv) : Decidable e.isOverlappedRead := by
  unfold RxEnv.isOverlappedRead
  infer_instance

/-- A read of the drain that delivers a non-empty batch of bytes without an
    error: `ReadFile` completes at once, or the read completes through the
    overlapped path. -/
def RxEnv.deliversBatch (e : RxEnv) : Prop :=
  (e.readFile = IoResult.ok ∨ e.isOverlappedRead) ∧ e.data ≠ [] ∧ ∀ c ∈ e.data, c < 256

instance (e : RxEnv) : Decidable e.deliversBatch := by
  unfold RxEnv.deliversBatch
  infer_instance

/-- A read that ends the drain without an error report: a read of zero bytes
    that `ReadFile` completes at once or that completes through the overlapped
    path, or a pending read whose wait is not signalled (the 5 s time-out or
    another wait result). -/
def RxEnv.closesDrain (e : RxEnv) : Prop :=
  (e.readFile = IoResult.ok ∧ e.data = []) ∨ (e.isOverlappedRead ∧ e.data = []) ∨
    (e.readFile = IoResult.failed ERROR_IO_PENDING ∧ e.waitResult ≠ WAIT_OBJECT_0)

instance (e : RxEnv) : Decidable e.closesDrain := by
  unfold RxEnv.closesDrain
  infer_instance

/-- The line the receive loop prints before the bytes of a read that
    `ReadFile` completed at once (line 308); nothing for a read that was
    pending. -/
def batchNote (e : RxEnv) : String :=
  if e.readFile = IoResult.ok then "noasync\n" else ""

/-- The line the receive loop prints for the read that ends the drain: line
    308 when `ReadFile` completed at once, line 298 when the wait timed out,
    nothing otherwise. -/
def closingNote (e : RxEnv) : String :=
  if e.readFile = IoResult.ok then "noasync\n"
  else if e.waitResult = WAIT_TIMEOUT then "ReadFile WAIT_TIMEOUT\n"
  else ""

/-- Expected console text of the batches of a drain: for each read in order,
    its note followed by the rendering of its bytes. -/
def drainText (m : Spec.Mode) (p : Spec.Separator) : List RxEnv → String
  | [] => ""
  | e :: es => batchNote e ++ Spec.render m p e.data ++ drainText m p es

/-- Results of an overlapped read that delivers `data`. -/
def asyncRead (data : List Nat) : RxEnv :=
  { setCommMask := IoResult.ok, waitCommEvent := IoResult.ok, waitResult := WAIT_OBJECT_0,
    overlappedOk := true, evtMask := none, readFile := IoResult.failed ERROR_IO_PENDING,
    data := data }

/-- Results of a read that `ReadFile` completes at once with `data`. -/
def syncRead (data : List Nat) : RxEnv :=
  { setCommMask := IoResult.ok, waitCommEvent := IoResult.ok, waitResult := WAIT_OBJECT_0,
    overlappedOk := true, evtMask := none, readFile := IoResult.ok, data := data }

/-- Settings of the scenario "mode hex, separator space, echo no, no log". -/
def cfgHexSpace : Config :=
  { DisplayMode := 0, separator := 0, echo := 0, logtofile := 0, logname := "" }

/-- The receive loop inside the drain, no log stream. -/
def rxDraining : RxState :=
  { phase := RxPhase.draining, keepGoing := true, mask := 1, hRes := 0, stream := false }

/-- Settings of the scenario "mode ascii, separator none, echo yes, no log". -/
def cfgAsciiEcho : Config :=
  { DisplayMode := 1, separator := 3, echo := 1, logtofile := 0, logname := "" }

/-- A key event: the key `A` going down. -/
def keyDownA : InputRecord :=
  { EventType := KEY_EVENT, bKeyDown := true, wVirtualKeyCode := 0x41, AsciiChar := 0x41 }

/-- The keyboard thread at the top of its loop, `b1` zeroed. -/
def relayListening : RelayState :=
  { phase := RelayPhase.listening,
    b1 := { EventType := 0, bKeyDown := false, wVirtualKeyCode := 0, AsciiChar := 0 } }

/-- Results of a keyboard-thread step that reads the record `r`, with the
    given result of `WriteFile`; the other calls succeed. -/
def keyEnv (r : InputRecord) (w : IoResult) : RelayEnv :=
  { createEventOk := true, readConsoleInput := some r, writeFile := w, overlappedOk := true,
    setCommMask := IoResult.ok }

/-- A key event: release of F2 (virtual key 0x71) carrying the escape byte. -/
def keyUpF2Esc : InputRecord :=
  { EventType := KEY_EVENT, bKeyDown := false, wVirtualKeyCode := 0x71, AsciiChar := 0x1b }

/-- A key event: the escape key going down. -/
def keyDownEsc : InputRecord :=
  { EventType := KEY_EVENT, bKeyDown := true, wVirtualKeyCode := 0x1b, AsciiChar := 0x1b }

/-- Results of a drain read whose wait runs into the 5 s time-out. -/
def timedOutRead : RxEnv :=
  { setCommMask := IoResult.ok, waitCommEvent := IoResult.ok, waitResult := WAIT_TIMEOUT,
    overlappedOk := true, evtMask := none, readFile := IoResult.failed ERROR_IO_PENDING,
    data := [] }

/-- Results of a receive-loop step in which every call succeeds at once and
    nothing is delivered. -/
def rxQuiet : RxEnv :=
  { setCommMask := IoResult.ok, waitCommEvent := IoResult.ok, waitResult := WAIT_OBJECT_0,
    overlappedOk := true, evtMask := none, readFile := IoResult.ok, data := [] }

/-- The receive loop on entry to its `while` loop (no log stream, `mask` zero). -/
def rxLoopStart : RxState :=
  { phase := RxPhase.loopTop, keepGoing := true, mask := 0, hRes := 2147483648, stream := false }

/-- Both threads mid-session: the keyboard thread listening, the receive loop
    inside a drain, the port mask armed. -/
def sysMidDrain : System :=
  { relay := relayListening, rx := rxDraining, commMask := EV_RXCHAR }

/-- Results of a receive-loop wait that is pending and runs into the 5 s
    time-out. -/
def rxTimeout : RxEnv :=
  { setCommMask := IoResult.ok, waitCommEvent := IoResult.failed ERROR_IO_PENDING,
    waitResult := WAIT_TIMEOUT, overlappedOk := true, evtMask := none,
    readFile := IoResult.ok, data := [] }

/-- The interleaving in which the stop request arrives during a drain: the
    keyboard thread reads the escape key and calls `SetCommMask(h, 0)`, then
    the receive loop ends its drain and goes through the top of its loop. -/
def lostStopMoves : List Move :=
  [Move.relay (keyEnv keyDownEsc IoResult.ok), Move.relay (keyEnv keyDownEsc IoResult.ok),
    Move.rx (asyncRead []), Move.rx rxQuiet]

/-- Rounds of the receive loop in which the wait times out and the loop goes
    through its top again. -/
def timeoutRounds : Nat → List Move
  | 0 => []
  | n + 1 => Move.rx rxTimeout :: Move.rx rxQuiet :: timeoutRounds n

/-- The keyboard thread gone, the receive loop waiting after a time-out, the
    port mask armed. -/
def sysWaitingAlone : System :=
  { relay := { phase := RelayPhase.exited, b1 := keyDownEsc },
    rx := { phase := RxPhase.waiting, keepGoing := true, mask := 0, hRes := WAIT_TIMEOUT,
            stream := false },
    commMask := EV_RXCHAR }

/-- A console that never delivers anything; the console calls succeed. -/
def noKeys : KeyWaitEnv :=
  { getStdHandleOk := true, getConsoleModeOk := true, setConsoleModeOk := true,
    stale := [], reads := [] }

end SerialTerm

/-! # Theorems -/

namespace SerialTerm

/-! ## Text of traces -/

theorem consoleText_append (report : String → String) (a b : List Event) :
    consoleText report (a ++ b) = consoleText report a ++ consoleText report b := by
  induction a with
  | nil => simp [consoleText]
  | cons e es ih => simp [consoleText, ih, String.append_assoc]

theorem consoleText_ite_printf (report : String → String) (p : Prop) [Decidable p] (t : String) :
    consoleText report (if p then [Event.printf t] else []) = if p then t else "" := by
  split <;> simp [consoleText, Event.consoleOut]

theorem consoleText_ite_fprintf (report : String → String) (p : Prop) [Decidable p] (t : String) :
    consoleText report (if p then [Event.fprintf t] else []) = "" := by
  split <;> simp [consoleText, Event.consoleOut]

theorem consoleText_logByte (report : String → String) (cfg : Config) (c : Nat) :
    consoleText report (logByte cfg c) = "" := by
  simp [logByte, consoleText_append, consoleText_ite_fprintf]

theorem consoleByte_text (report : String → String) (cfg : Config) (mode : Spec.Mode)
    (sep : Spec.Separator) (c : Nat) (hm : cfg.DisplayMode = mode.code)
    (hs : cfg.separator = sep.code) (hc : c < 256) :
    consoleText report (consoleByte cfg c) = Spec.format c mode ++ Spec.separator sep := by
  cases mode <;> cases sep <;>
    simp [consoleByte, consoleText_append, consoleText_ite_printf, hm, hs, Spec.Mode.code,
      Spec.Separator.code, Spec.format, Spec.separator, fmtHex, fmtChar, fmtDec,
      Nat.mod_eq_of_lt hc, consoleText, Event.consoleOut]

theorem render_append (m : Spec.Mode) (p : Spec.Separator) (a b : List Nat) :
    Spec.render m p (a ++ b) = Spec.render m p a ++ Spec.render m p b := by
  induction a with
  | nil => simp [Spec.render]
  | cons x xs ih => simp [Spec.render, ih, String.append_assoc]

/-! ## The display loop -/

theorem renderLoop_console (report : String → String) (cfg : Config) (mode : Spec.Mode)
    (sep : Spec.Separator) (stream : Bool) (buf : List Nat)
    (hm : cfg.DisplayMode = mode.code) (hs : cfg.separator = sep.code)
    (hlog : cfg.logtofile ≠ 0 → stream = true) (hbuf : ∀ c ∈ buf, c < 256) :
    (renderLoop cfg stream buf).2 = true ∧
      consoleText report (renderLoop cfg stream buf).1 = Spec.render mode sep buf := by
  induction buf with
  | nil => simp [renderLoop, consoleText, Spec.render]
  | cons c cs ih =>
    have hc : c < 256 := hbuf c (List.mem_cons_self c cs)
    have ih2 := ih (fun x hx => hbuf x (List.mem_cons_of_mem c hx))
    by_cases hl : cfg.logtofile = 0
    · simp [renderLoop, hl, ih2.1, consoleText_append, consoleByte_text report cfg mode sep c hm hs hc,
        ih2.2, Spec.render, String.append_assoc]
    · have hst : stream = true := hlog hl
      subst hst
      simp [renderLoop, hl, ih2.1, consoleText_append, consoleText_logByte,
        consoleByte_text report cfg mode sep c hm hs hc, ih2.2, Spec.render, String.append_assoc]

/-! ## C2: the three tokens -/

set_option maxRecDepth 200000 in
theorem token_hex_all : ∀ b, b < 256 →
    (tokenText 0 b).data.take 2 = ['0', 'x'] ∧ (tokenText 0 b).data.drop 2 ≠ [] ∧
      Spec.readNat 16 ((tokenText 0 b).data.drop 2) = some b := by
  decide

set_option maxRecDepth 200000 in
theorem token_dec_all : ∀ b, b < 256 →
    (tokenText 2 b).data ≠ [] ∧ Spec.readNat 10 (tokenText 2 b).data = some b := by
  decide

set_option maxRecDepth 200000 in
theorem token_ascii_all : ∀ b, b < 256 →
    (tokenText 1 b).data.length = 1 ∧ (tokenText 1 b).data.map Char.toNat = [b] := by
  decide

/-- C2: for every byte `b` in 0..255 the hex token is the marker `0x` followed
    by a non-empty string of hexadecimal digits that reads back as `b`, the
    decimal token is a non-empty string of decimal digits (no sign) that reads
    back as `b`, the ascii token is exactly one character whose code is `b`,
    and in each of the three modes two bytes with the same token are equal. -/
theorem format_token_faithful (b : Nat) (hb : b < 256) :
    ((tokenText 0 b).data.take 2 = ['0', 'x'] ∧ (tokenText 0 b).data.drop 2 ≠ [] ∧
      Spec.readNat 16 ((tokenText 0 b).data.drop 2) = some b) ∧
    ((tokenText 2 b).data ≠ [] ∧ Spec.readNat 10 (tokenText 2 b).data = some b) ∧
    (∃ c : Char, tokenText 1 b = String.singleton c ∧ c.toNat = b) ∧
    (∀ m b2, m < 3 → b2 < 256 → tokenText m b = tokenText m b2 → b = b2) := by
  refine ⟨token_hex_all b hb, token_dec_all b hb, ?_, ?_⟩
  · obtain ⟨hlen, hmap⟩ := token_ascii_all b hb
    match hd : (tokenText 1 b).data, hlen, hmap with
    | [c], _, hmap =>
      refine ⟨c, ?_, ?_⟩
      · exact String.ext (by simpa [String.singleton] using hd)
      · simpa using hmap
  · intro m b2 hm hb2 heq
    interval_cases m
    · have h1 := (token_hex_all b hb).2.2
      have h2 := (token_hex_all b2 hb2).2.2
      rw [heq, h2] at h1
      exact (Option.some.inj h1).symm
    · have h1 := (token_ascii_all b hb).2
      have h2 := (token_ascii_all b2 hb2).2
      rw [heq, h2] at h1
      simpa using h1.symm
    · have h1 := (token_dec_all b hb).2
      have h2 := (token_dec_all b2 hb2).2
      rw [heq, h2] at h1
      exact (Option.some.inj h1).symm

/-- The byte 0x41 in hex mode gives a token whose digits read back as 0x41. -/
theorem format_token_faithful_witness :
    Spec.readNat 16 ((tokenText 0 0x41).data.drop 2) = some 0x41 :=
  (format_token_faithful 0x41 (by decide)).1.2.2

/-! ## C1: the drain renders the bytes in order -/

theorem rxStep_overlapped_read (cfg : Config) (s : RxState) (e : RxEnv)
    (hphase : s.phase = RxPhase.draining) (he : e.isOverlappedRead) :
    rxStep cfg s e =
      ((rxAfterRead cfg s e.data).1, [Event.readFile] ++ (rxAfterRead cfg s e.data).2) := by
  obtain ⟨h1, h2, h3⟩ := he
  simp [rxStep, hphase, rxRead, h1, h2, h3]

theorem rxStep_delivers_batch (report : String → String) (cfg : Config) (mode : Spec.Mode)
    (sep : Spec.Separator) (s : RxState) (e : RxEnv)
    (hmode : cfg.DisplayMode = mode.code) (hsep : cfg.separator = sep.code)
    (hphase : s.phase = RxPhase.draining) (hlog : cfg.logtofile ≠ 0 → s.stream = true)
    (he : e.deliversBatch) :
    (rxStep cfg s e).1 = s ∧
      consoleText report (rxStep cfg s e).2 = batchNote e ++ Spec.render mode sep e.data := by
  obtain ⟨hkind, hne, hlt⟩ := he
  have hr := renderLoop_console report cfg mode sep s.stream e.data hmode hsep hlog hlt
  have hlen : e.data.length ≠ 0 := fun h0 => hne (List.length_eq_zero.mp h0)
  rcases hkind with hsync | hov
  · simp [rxStep, hphase, rxRead, hsync, rxAfterRead, hlen, hr.1, batchNote, consoleText,
      consoleText_append, Event.consoleOut, hr.2]
  · rw [rxStep_overlapped_read cfg s e hphase hov]
    obtain ⟨h1, _, _⟩ := hov
    simp [rxAfterRead, hlen, hr.1, batchNote, h1, consoleText, Event.consoleOut, hr.2]

theorem rxStep_closes_drain (report : String → String) (cfg : Config) (s : RxState)
    (e : RxEnv) (hphase : s.phase = RxPhase.draining) (he : e.closesDrain) :
    (rxStep cfg s e).1 = { s with phase := RxPhase.loopTop, mask := 0 } ∧
      consoleText report (rxStep cfg s e).2 = closingNote e := by
  rcases he with ⟨hsync, hd⟩ | ⟨hov, hd⟩ | ⟨hpend, hw⟩
  · simp [rxStep, hphase, rxRead, hsync, hd, rxAfterRead, closingNote, consoleText,
      Event.consoleOut]
  · rw [rxStep_overlapped_read cfg s e hphase hov]
    obtain ⟨h1, h2, _⟩ := hov
    simp [rxAfterRead, hd, closingNote, h1, h2, WAIT_OBJECT_0, WAIT_TIMEOUT, consoleText,
      Event.consoleOut]
  · by_cases ht : e.waitResult = WAIT_TIMEOUT
    · have hto : WAIT_TIMEOUT ≠ WAIT_OBJECT_0 := by decide
      simp [rxStep, hphase, rxRead, hpend, ht, hto, rxAfterRead, closingNote, consoleText,
        Event.consoleOut]
    · simp [rxStep, hphase, rxRead, hpend, hw, ht, rxAfterRead, closingNote, consoleText,
        Event.consoleOut]

theorem drainText_overlapped (mode : Spec.Mode) (sep : Spec.Separator) (reads : List RxEnv)
    (h : ∀ e ∈ reads, e.isOverlappedRead) :
    drainText mode sep reads = Spec.render mode sep (reads.map RxEnv.data).flatten := by
  induction reads with
  | nil => simp [drainText, Spec.render]
  | cons e es ih =>
    obtain ⟨h1, _, _⟩ := h e (List.mem_cons_self e es)
    have ih2 := ih (fun x hx => h x (List.mem_cons_of_mem e hx))
    simp [drainText, batchNote, h1, ih2, render_append]

/-- C1 (amended): for every display mode, separator policy and sequence of
    device bytes delivered in any number of non-empty batches by reads that
    succeed (at once or through the overlapped path), the drain being ended by
    a read that yields no bytes (zero bytes at once or overlapped, or a wait
    that is not signalled), the text the receive loop writes to the console
    during the drain is, batch by batch in arrival order, the line `noasync`
    when `ReadFile` completed that read at once, then for every byte of the
    batch in order `format(byte, mode)` followed by `separator(policy)`; after
    the last batch comes `noasync` when the closing read completed at once,
    `ReadFile WAIT_TIMEOUT` when it timed out, and nothing otherwise.  The
    drain then stands at the top of the loop with `mask = 0`.  When every
    batch is read through the overlapped path the text of the batches is the
    concatenation over all bytes in arrival order, whatever the batches. -/
theorem drain_console_is_render (report : String → String) (cfg : Config)
    (mode : Spec.Mode) (sep : Spec.Separator) (s : RxState) (reads : List RxEnv) (last : RxEnv)
    (hmode : cfg.DisplayMode = mode.code) (hsep : cfg.separator = sep.code)
    (hphase : s.phase = RxPhase.draining)
    (hlog : cfg.logtofile ≠ 0 → s.stream = true)
    (hreads : ∀ e ∈ reads, e.deliversBatch)
    (hlast : last.closesDrain) :
    consoleText report (rxRun cfg s (reads ++ [last])).2 =
        drainText mode sep reads ++ closingNote last ∧
      (rxRun cfg s (reads ++ [last])).1 = { s with phase := RxPhase.loopTop, mask := 0 } ∧
      ((∀ e ∈ reads, e.isOverlappedRead) →
        drainText mode sep reads = Spec.render mode sep (reads.map RxEnv.data).flatten) := by
  refine ⟨?_, ?_, drainText_overlapped mode sep reads⟩
  · induction reads with
    | nil =>
      have hc := rxStep_closes_drain report cfg s last hphase hlast
      simp [rxRun, hc.2, drainText, consoleText]
    | cons e es ih =>
      have hb := rxStep_delivers_batch report cfg mode sep s e hmode hsep hphase hlog
        (hreads e (List.mem_cons_self e es))
      have ih2 := ih (fun x hx => hreads x (List.mem_cons_of_mem e hx))
      show consoleText report (rxRun cfg s (e :: (es ++ [last]))).2 = _
      simp only [rxRun]
      rw [consoleText_append, hb.2, hb.1, ih2]
      simp [drainText, String.append_assoc]
  · induction reads with
    | nil =>
      have hc := rxStep_closes_drain report cfg s last hphase hlast
      simp [rxRun, hc.1]
    | cons e es ih =>
      have hb := rxStep_delivers_batch report cfg mode sep s e hmode hsep hphase hlog
        (hreads e (List.mem_cons_self e es))
      have ih2 := ih (fun x hx => hreads x (List.mem_cons_of_mem e hx))
      show (rxRun cfg s (e :: (es ++ [last]))).1 = _
      simp only [rxRun]
      rw [hb.1, ih2]

/-- In hex mode with the space separator the bytes 0x41, 0x0A arriving in two
    overlapped reads, the drain ended by an overlapped read of zero bytes,
    give the console text `0x41 0xa `; the same bytes read at once in one
    batch, the drain ended by a time-out, give the two notes around it. -/
theorem drain_console_is_render_witness :
    consoleText (fun t => t)
        (rxRun cfgHexSpace rxDraining ([asyncRead [0x41], asyncRead [0x0A]] ++ [asyncRead []])).2 =
      "0x41 0xa " ∧
    consoleText (fun t => t)
        (rxRun cfgHexSpace rxDraining ([syncRead [0x41, 0x0A]] ++ [timedOutRead])).2 =
      "noasync\n0x41 0xa ReadFile WAIT_TIMEOUT\n" :=
  ⟨(drain_console_is_render (fun t => t) cfgHexSpace Spec.Mode.hex Spec.Separator.space
      rxDraining [asyncRead [0x41], asyncRead [0x0A]] (asyncRead []) rfl rfl rfl (by decide)
      (by decide) (by decide)).1.trans (by decide),
    (drain_console_is_render (fun t => t) cfgHexSpace Spec.Mode.hex Spec.Separator.space
      rxDraining [syncRead [0x41, 0x0A]] timedOutRead rfl rfl rfl (by decide)
      (by decide) (by decide)).1.trans (by decide)⟩

/-- C1 (as stated) fails: when `ReadFile` completes at once, the receive loop
    writes `noasync` and a newline to the console before the tokens of the
    batch, so the console text of the drain is not the concatenation of the
    tokens. -/
theorem sync_read_inserts_diagnostic :
    consoleText (fun t => t)
        (rxRun cfgHexSpace rxDraining [syncRead [0x41, 0x0A], asyncRead []]).2 =
        "noasync\n0x41 0xa " ∧
      consoleText (fun t => t)
        (rxRun cfgHexSpace rxDraining [syncRead [0x41, 0x0A], asyncRead []]).2 ≠
        Spec.render Spec.Mode.hex Spec.Separator.space [0x41, 0x0A] := by
  decide

/-! ## C3: the log receives the formatted text, and nothing from the keyboard thread -/

/-- C4 (the code at the failing inputs): with echo on and the key `A` pressed,
    a `WriteFile` that returns TRUE (the write succeeded) makes the keyboard
    thread report `E004_WriteFile failed` and quit without echo, while a
    `WriteFile` that fails with an error other than pending (5, access denied)
    is followed by the echo and the thread keeps listening; a pending write
    whose overlapped result fails is reported (E003) and still echoed. -/
theorem write_result_branches_inverted :
    relayStep cfgAsciiEcho relayListening (keyEnv keyDownA IoResult.ok) =
      ({ phase := RelayPhase.quitting, b1 := keyDownA },
        [Event.readConsoleInput, Event.writeFile 0x41,
          Event.printError "E004_WriteFile failed"]) ∧
    relayStep cfgAsciiEcho relayListening (keyEnv keyDownA (IoResult.failed 5)) =
      ({ phase := RelayPhase.listening, b1 := keyDownA },
        [Event.readConsoleInput, Event.writeFile 0x41, Event.printf "A"]) ∧
    relayStep cfgAsciiEcho relayListening
        { keyEnv keyDownA (IoResult.failed ERROR_IO_PENDING) with overlappedOk := false } =
      ({ phase := RelayPhase.quitting, b1 := keyDownA },
        [Event.readConsoleInput, Event.writeFile 0x41,
          Event.printError "E003_GetOverlappedResult failed", Event.printf "A"]) := by
  decide

/-! ## C5: the quit bytes -/

theorem shutdownRequests_append (a b : List Event) :
    shutdownRequests (a ++ b) = shutdownRequests a + shutdownRequests b := by
  induction a with
  | nil => simp [shutdownRequests]
  | cons e es ih =>
    cases e with
    | setCommMask v ok =>
      cases v with
      | zero => simp [shutdownRequests, ih]; omega
      | succ n => simp [shutdownRequests, ih]
    | _ => simp [shutdownRequests, ih]

theorem relayRun_exited (cfg : Config) (s : RelayState) (script : List RelayEnv)
    (h : s.phase = RelayPhase.exited) : relayRun cfg s script = (s, []) := by
  induction script with
  | nil => rfl
  | cons e es ih => simp [relayRun, relayStep, h, ih]

theorem relayRun_quitting (cfg : Config) (s : RelayState) (e : RelayEnv) (rest : List RelayEnv)
    (h : s.phase = RelayPhase.quitting) :
    (relayRun cfg s (e :: rest)).1.phase = RelayPhase.exited ∧
      shutdownRequests (relayRun cfg s (e :: rest)).2 = 1 := by
  have hstep : (relayStep cfg s e).1.phase = RelayPhase.exited := by
    simp [relayStep, h]
  have hev : shutdownRequests (relayStep cfg s e).2 = 1 := by
    simp only [relayStep, h]
    cases e.setCommMask <;> simp [shutdownRequests, IoResult.succeeded]
  simp only [relayRun]
  rw [relayRun_exited cfg _ rest hstep]
  simp [hstep, hev]

/-- C5 (amended): for every console event that the keyboard thread reads
    successfully, whose character byte is the escape byte 0x1b or the
    interrupt byte 0x03 and which is not a key-release event of F2 (0x71) or
    F5 (0x74), the thread leaves its loop without writing the byte to the port
    or echoing it, whatever the key-down state; and once it has left the loop
    it calls `SetCommMask(h, 0)` exactly once and returns. -/
theorem quit_byte_leaves_loop (cfg : Config) (b1 r : InputRecord) (e : RelayEnv)
    (hread : e.readConsoleInput = some r)
    (hquit : r.AsciiChar % 256 = 0x1b ∨ r.AsciiChar % 256 = 0x03)
    (hkey : ¬ (r.EventType = KEY_EVENT ∧ r.bKeyDown = false ∧
      (r.wVirtualKeyCode = 0x71 ∨ r.wVirtualKeyCode = 0x74))) :
    relayStep cfg { phase := RelayPhase.listening, b1 := b1 } e =
      ({ phase := RelayPhase.quitting, b1 := r }, [Event.readConsoleInput]) ∧
    (∀ (e2 : RelayEnv) (rest : List RelayEnv),
      (relayRun cfg { phase := RelayPhase.listening, b1 := b1 } (e :: e2 :: rest)).1.phase =
        RelayPhase.exited ∧
      shutdownRequests
        (relayRun cfg { phase := RelayPhase.listening, b1 := b1 } (e :: e2 :: rest)).2 = 1) := by
  have hstep : relayStep cfg { phase := RelayPhase.listening, b1 := b1 } e =
      ({ phase := RelayPhase.quitting, b1 := r }, [Event.readConsoleInput]) := by
    simp only [relayStep, relayIter, hread, Option.getD_some, Option.isNone_some,
      Option.isSome_some]
    rw [if_neg hkey]
    simp [hquit]
  refine ⟨hstep, fun e2 rest => ?_⟩
  have hq := relayRun_quitting cfg { phase := RelayPhase.quitting, b1 := r } e2 rest rfl
  have hrun : relayRun cfg { phase := RelayPhase.listening, b1 := b1 } (e :: e2 :: rest) =
      ((relayRun cfg { phase := RelayPhase.quitting, b1 := r } (e2 :: rest)).1,
        [Event.readConsoleInput] ++
          (relayRun cfg { phase := RelayPhase.quitting, b1 := r } (e2 :: rest)).2) := by
    conv_lhs => rw [relayRun, hstep]
  rw [hrun]
  refine ⟨hq.1, ?_⟩
  rw [shutdownRequests_append, hq.2]
  simp [shutdownRequests]

/-- The escape key going down ends the loop; the next step requests the
    shutdown once. -/
theorem quit_byte_leaves_loop_witness :
    relayStep cfgAsciiEcho { phase := RelayPhase.listening, b1 := relayListening.b1 }
        (keyEnv keyDownEsc IoResult.ok) =
      ({ phase := RelayPhase.quitting, b1 := keyDownEsc }, [Event.readConsoleInput]) ∧
    (∀ (e2 : RelayEnv) (rest : List RelayEnv),
      (relayRun cfgAsciiEcho { phase := RelayPhase.listening, b1 := relayListening.b1 }
        (keyEnv keyDownEsc IoResult.ok :: e2 :: rest)).1.phase = RelayPhase.exited ∧
      shutdownRequests
        (relayRun cfgAsciiEcho { phase := RelayPhase.listening, b1 := relayListening.b1 }
          (keyEnv keyDownEsc IoResult.ok :: e2 :: rest)).2 = 1) :=
  quit_byte_leaves_loop cfgAsciiEcho relayListening.b1 keyDownEsc (keyEnv keyDownEsc IoResult.ok)
    rfl (by decide) (by decide)

/-- C5 (as stated) fails: a successfully read key-release event of F2 whose
    character byte is the escape byte is skipped by the `continue` of line
    155, and the keyboard thread keeps listening. -/
theorem quit_byte_skipped_on_f2_release :
    relayStep cfgAsciiEcho relayListening (keyEnv keyUpF2Esc IoResult.ok) =
      ({ phase := RelayPhase.listening, b1 := keyUpF2Esc }, [Event.readConsoleInput]) := by
  decide

/-! ## C6: `main` and the start of the session -/

/-- C6 (the code at the failing inputs): when the port opens and
    `SetCommTimeouts` succeeds, `main` returns 0 without calling
    `SetCommState`, `Terminal` or `CloseHandle`; when `SetCommTimeouts` and
    `SetCommState` both fail, both errors are reported and `Terminal` still
    runs, after which the handle is closed. -/
theorem session_starts_only_after_timeouts_failure :
    main ["serialterm", "com1", "9600", "hex", "space", "no"]
        { createFileOk := true, setCommTimeoutsOk := true, setCommStateOk := true,
          keys := noKeys } =
      (some 0, [Event.createFile "com1", Event.setCommTimeouts]) ∧
    main ["serialterm", "com1", "9600", "hex", "space", "no"]
        { createFileOk := true, setCommTimeoutsOk := false, setCommStateOk := false,
          keys := noKeys } =
      (some 0,
        [Event.createFile "com1", Event.setCommTimeouts,
          Event.printError "E013_SetCommTimeouts failed", Event.setCommState,
          Event.printError "E014_SetCommState failed", Event.terminal cfgHexSpace,
          Event.closeHandle HandleKind.port]) := by
  decide

/-! ## C7: the settings taken from the arguments -/

/-- C7 (amended): for every argument vector whose log-file argument, when
    present, fits the buffer `logname` (fewer than 1024 bytes), the settings
    are parsed and each is decided by the first character of its argument: the
    display mode is hex or decimal exactly when the mode argument is present
    and begins with `h` or `d`, and ascii otherwise; the separator is space,
    newline or tab exactly when the separator argument is present and begins
    with `s`, `n` or `t`, and none otherwise; echo is on exactly when the echo
    argument is present and begins with `y`, and off otherwise. -/
theorem settings_follow_first_character (argv : List String)
    (hfit : 6 < argv.length → strlen (argv.getD 6 "") < NAME_SIZE) :
    ∃ cfg : Config, parseConfig argv = some cfg ∧
    ((cfg.DisplayMode = 0 ↔
        3 < argv.length ∧ firstChar (argv.getD 3 "") = 'h') ∧
      (cfg.DisplayMode = 2 ↔
        3 < argv.length ∧ firstChar (argv.getD 3 "") = 'd') ∧
      (cfg.DisplayMode = 1 ↔
        ¬ (3 < argv.length ∧
          (firstChar (argv.getD 3 "") = 'h' ∨ firstChar (argv.getD 3 "") = 'd')))) ∧
    ((cfg.separator = 0 ↔
        4 < argv.length ∧ firstChar (argv.getD 4 "") = 's') ∧
      (cfg.separator = 1 ↔
        4 < argv.length ∧ firstChar (argv.getD 4 "") = 'n') ∧
      (cfg.separator = 2 ↔
        4 < argv.length ∧ firstChar (argv.getD 4 "") = 't') ∧
      (cfg.separator = 3 ↔
        ¬ (4 < argv.length ∧
          (firstChar (argv.getD 4 "") = 's' ∨ firstChar (argv.getD 4 "") = 'n' ∨
            firstChar (argv.getD 4 "") = 't')))) ∧
    ((cfg.echo = 1 ↔
        5 < argv.length ∧ firstChar (argv.getD 5 "") = 'y') ∧
      (cfg.echo = 0 ↔
        ¬ (5 < argv.length ∧ firstChar (argv.getD 5 "") = 'y'))) := by
  have hd : ('h' : Char) ≠ 'd' := by decide
  have hsn : ('s' : Char) ≠ 'n' := by decide
  have hst : ('s' : Char) ≠ 't' := by decide
  have hnt : ('n' : Char) ≠ 't' := by decide
  by_cases h6 : 6 < argv.length
  · refine ⟨_, by simp only [parseConfig]; rw [if_pos h6, if_pos (hfit h6)], ?_⟩
    generalize firstChar (argv.getD 3 "") = c3
    generalize firstChar (argv.getD 4 "") = c4
    generalize firstChar (argv.getD 5 "") = c5
    refine ⟨⟨?_, ?_, ?_⟩, ⟨?_, ?_, ?_, ?_⟩, ⟨?_, ?_⟩⟩ <;>
      dsimp only <;> split_ifs <;> simp_all
  · refine ⟨_, by simp only [parseConfig]; rw [if_neg h6], ?_⟩
    generalize firstChar (argv.getD 3 "") = c3
    generalize firstChar (argv.getD 4 "") = c4
    generalize firstChar (argv.getD 5 "") = c5
    refine ⟨⟨?_, ?_, ?_⟩, ⟨?_, ?_, ?_, ?_⟩, ⟨?_, ?_⟩⟩ <;>
      dsimp only <;> split_ifs <;> simp_all

/-- The documented example `com1 115200 hex space no log.txt`: the log name
    fits, the mode is hex, the separator space and echo is off. -/
theorem settings_follow_first_character_witness :
    ∃ cfg : Config,
      parseConfig ["serialterm", "com1", "115200", "hex", "space", "no", "log.txt"] = some cfg ∧
      cfg.DisplayMode = 0 ∧ cfg.separator = 0 ∧ cfg.echo = 0 := by
  obtain ⟨cfg, hcfg, hm, hs, he⟩ := settings_follow_first_character
    ["serialterm", "com1", "115200", "hex", "space", "no", "log.txt"] (by decide)
  exact ⟨cfg, hcfg, hm.1.mpr (by decide), hs.1.mpr (by decide), he.2.mpr (by decide)⟩

/-- C7 (as stated) fails: the mode argument `hello` selects hex, the separator
    argument `nothing` selects newline and the echo argument `yikes` turns
    echo on, though none of them is a documented word. -/
theorem unrecognised_words_select_settings :
    parseConfig ["serialterm", "com1", "9600", "hello", "nothing", "yikes"] =
      some { DisplayMode := 0, separator := 1, echo := 1, logtofile := 0, logname := "" } ∧
    "hello" ≠ "hex" ∧ "nothing" ≠ "newline" ∧ "yikes" ≠ "yes" := by
  decide

/-! ## C8: `wait4keypressed` -/

/-- C8 (the code at the failing input): when `GetConsoleMode` succeeds, `main`
    run without a port argument prints the banner and the help and returns 0
    without a single call of `ReadConsoleInput`, even on a console that never
    delivers a key event. -/
theorem no_port_returns_without_key :
    main ["serialterm"]
        { createFileOk := true, setCommTimeoutsOk := true, setCommStateOk := true,
          keys := noKeys } =
      (some 0, [Event.printf "Commandline Serial Terminal - May 2014\n", Event.help]) ∧
    wait4keypressed noKeys = (true, []) := by
  decide

/-! ## C9: errors in the receive loop -/

/-- C9 (the code at the failing input): the wait reports a received character,
    `ReadFile` fails with error 5 (not pending), the loop reports
    `E011_ReadFile failed`, and then goes round again: it re-arms the mask,
    calls `WaitCommEvent` and, on a further received character, `ReadFile`; it
    has not reached its stopped state.  Likewise after a failed overlapped
    read result (`E010_GetOverlappedResult failed`) the loop waits again. -/
theorem read_error_does_not_end_session :
    rxRun cfgHexSpace rxLoopStart
        [rxQuiet, { rxQuiet with evtMask := some EV_RXCHAR },
          { rxQuiet with readFile := IoResult.failed 5 },
          rxQuiet, { rxQuiet with evtMask := some EV_RXCHAR }, asyncRead [0x41]] =
      ({ phase := RxPhase.draining, keepGoing := true, mask := 1, hRes := 2147483648,
         stream := false },
        [Event.setCommMask EV_RXCHAR true, Event.waitCommEvent, Event.readFile,
          Event.printError "E011_ReadFile failed",
          Event.setCommMask EV_RXCHAR true, Event.waitCommEvent, Event.readFile,
          Event.printf "0x41", Event.printf " "]) ∧
    rxRun cfgHexSpace rxDraining
        [{ asyncRead [] with overlappedOk := false }, rxQuiet,
          { rxQuiet with evtMask := some EV_RXCHAR }] =
      ({ phase := RxPhase.draining, keepGoing := true, mask := 1, hRes := 0, stream := false },
        [Event.readFile, Event.printError "E010_GetOverlappedResult failed",
          Event.setCommMask EV_RXCHAR true, Event.waitCommEvent]) := by
  decide

/-! ## C10: who writes the comm event mask -/

theorem maskAfter_of_writes (v : Nat) (evs : List Event) :
    ∀ m : Nat, (∀ w ok, Event.setCommMask w ok ∈ evs → w = v) →
      maskAfter m evs = m ∨ maskAfter m evs = v := by
  induction evs with
  | nil => intro m _; simp [maskAfter]
  | cons e es ih =>
    intro m h
    have hes : ∀ w ok, Event.setCommMask w ok ∈ es → w = v :=
      fun w ok hw => h w ok (List.mem_cons_of_mem e hw)
    cases e with
    | setCommMask w ok =>
      cases ok with
      | true =>
        have hw : w = v := h w true (List.mem_cons_self _ es)
        subst hw
        simp only [maskAfter]
        rcases ih w hes with h1 | h1 <;> exact Or.inr h1
      | false => simpa [maskAfter] using ih m hes
    | _ => simpa [maskAfter] using ih m hes

theorem renderLoop_no_setCommMask (cfg : Config) (stream : Bool) (buf : List Nat)
    (w : Nat) (ok : Bool) : Event.setCommMask w ok ∉ (renderLoop cfg stream buf).1 := by
  induction buf with
  | nil => simp [renderLoop]
  | cons c cs ih =>
    simp only [renderLoop, consoleByte, logByte]
    split_ifs <;> simp [ih]

theorem relayStep_writes_zero (cfg : Config) (s : RelayState) (e : RelayEnv) (w : Nat)
    (ok : Bool) (h : Event.setCommMask w ok ∈ (relayStep cfg s e).2) : w = 0 := by
  unfold relayStep at h
  split at h
  · split at h <;> simp at h
    exact h.1
  · simp only [relayIter, relayWrite] at h
    split_ifs at h <;> simp at h <;> (split at h <;> simp at h)
  · cases hm : e.setCommMask <;> simp [hm] at h
    · exact h.1
    · exact h.1
  · simp at h

theorem rxStep_writes_rxchar (cfg : Config) (s : RxState) (e : RxEnv) (w : Nat)
    (ok : Bool) (h : Event.setCommMask w ok ∈ (rxStep cfg s e).2) : w = EV_RXCHAR := by
  have hr := renderLoop_no_setCommMask cfg s.stream
  unfold rxStep at h
  split at h
  · simp only [rxLoopTop, rxLeave] at h
    split_ifs at h <;> simp at h
    · exact h.1
    · exact h.1
  · simp only [rxWait, rxAfterWait, rxLeave] at h
    split at h <;> split_ifs at h <;> simp at h
  · simp only [rxRead, rxAfterRead] at h
    split at h <;> split_ifs at h <;> simp [hr] at h
  · simp at h
  · simp at h

/-- Values written to the comm event mask: a step of the keyboard thread
    leaves the mask as it is or sets it to 0; a step of the receive loop leaves
    the mask as it is or sets it to EV_RXCHAR. -/
theorem comm_mask_write_values (cfg : Config) (σ : System) :
    (∀ e : RelayEnv, (sysStep cfg σ (Move.relay e)).1.commMask = σ.commMask ∨
      (sysStep cfg σ (Move.relay e)).1.commMask = 0) ∧
    (∀ e : RxEnv, (sysStep cfg σ (Move.rx e)).1.commMask = σ.commMask ∨
      (sysStep cfg σ (Move.rx e)).1.commMask = EV_RXCHAR) := by
  refine ⟨fun e => ?_, fun e => ?_⟩
  · exact maskAfter_of_writes 0 _ σ.commMask (fun w ok h => relayStep_writes_zero cfg _ e w ok h)
  · exact maskAfter_of_writes EV_RXCHAR _ σ.commMask
      (fun w ok h => rxStep_writes_rxchar cfg _ e w ok h)

theorem sysRun_append (cfg : Config) (a b : List Move) :
    ∀ σ : System, (sysRun cfg σ (a ++ b)).1 = (sysRun cfg (sysRun cfg σ a).1 b).1 := by
  induction a with
  | nil => intro σ; rfl
  | cons m ms ih =>
    intro σ
    show (sysRun cfg σ (m :: (ms ++ b))).1 = _
    simp only [sysRun]
    exact ih _

theorem timeoutRounds_keep_waiting (n : Nat) :
    (sysRun cfgHexSpace sysWaitingAlone (timeoutRounds n)).1 = sysWaitingAlone := by
  induction n with
  | zero => rfl
  | succ k ih =>
    have hround : (sysRun cfgHexSpace sysWaitingAlone [Move.rx rxTimeout, Move.rx rxQuiet]).1 =
        sysWaitingAlone := by decide
    have happ := sysRun_append cfgHexSpace [Move.rx rxTimeout, Move.rx rxQuiet]
      (timeoutRounds k) sysWaitingAlone
    rw [hround, ih] at happ
    exact happ

/-- C10 (the code at the failing interleaving): the keyboard thread reads the
    escape key while the receive loop is inside a drain and sets the comm mask
    to 0 (stop-requested); the receive loop ends its drain, returns to the top
    of its loop and sets the mask back to EV_RXCHAR before it waits, so the
    signal is running again when the loop next waits; and from then on, the
    keyboard thread having returned, the receive loop stays in its loop through
    any number of waits that time out. -/
theorem stop_request_reset_by_receive_loop :
    (sysRun cfgHexSpace sysMidDrain
        [Move.relay (keyEnv keyDownEsc IoResult.ok),
          Move.relay (keyEnv keyDownEsc IoResult.ok)]).1 =
      { relay := { phase := RelayPhase.exited, b1 := keyDownEsc }, rx := rxDraining,
        commMask := 0 } ∧
    (sysRun cfgHexSpace sysMidDrain
        [Move.relay (keyEnv keyDownEsc IoResult.ok),
          Move.relay (keyEnv keyDownEsc IoResult.ok),
          Move.rx (asyncRead []), Move.rx rxQuiet]).1 =
      { relay := { phase := RelayPhase.exited, b1 := keyDownEsc },
        rx := { phase := RxPhase.waiting, keepGoing := true, mask := 0, hRes := 0,
                stream := false },
        commMask := EV_RXCHAR } ∧
    (∀ n : Nat,
      (sysRun cfgHexSpace sysMidDrain (lostStopMoves ++ timeoutRounds (n + 1))).1 =
        sysWaitingAlone) := by
  refine ⟨by decide, by decide, fun n => ?_⟩
  rw [sysRun_append]
  have hfirst : (sysRun cfgHexSpace (sysRun cfgHexSpace sysMidDrain lostStopMoves).1
      [Move.rx rxTimeout, Move.rx rxQuiet]).1 = sysWaitingAlone := by decide
  have happ := sysRun_append cfgHexSpace [Move.rx rxTimeout, Move.rx rxQuiet]
    (timeoutRounds n) (sysRun cfgHexSpace sysMidDrain lostStopMoves).1
  rw [hfirst, timeoutRounds_keep_waiting n] at happ
  exact happ

end SerialTerm
